import Mathlib

/-!
# Verification of the Research Paper Summarizer pipeline

Shallow embedding of `app.py`: the PDF text extractor
(`extract_text_from_pdf`), the summary requester (`generate_summary`),
template loading (module-level `json.load` of `template.json`), and the
Streamlit button handler, together with proofs of the specified
properties.

External effects (the HTTP GET, the PDF decoder, the HTTP POST and the
JSON parse of its body) are modelled as explicit behaviour values passed
to the embedded functions; Python exceptions are modelled with
`Except PyExn`.
-/

/-- A Python exception that can escape a function, tagged with the data
that determines its `str()` rendering. -/
inductive PyExn where
  | keyError (k : String)
  | fileNotFoundError (name : String)
  | jsonDecodeError (msg : String)
  | requestsError (msg : String)
  | pdfReadError (msg : String)
  deriving DecidableEq, Repr

/-- The `str(e)` rendering of an exception, as interpolated into the
shell error message `f"Error: \x7bstr(e)\x7d"`.  `str(KeyError(k))` is the
repr of the key, i.e. the key in quotes. -/
def describePyExn : PyExn → String
  | .keyError k => "KeyError " ++ k
  | .fileNotFoundError name => "No such file or directory: " ++ name
  | .jsonDecodeError msg => msg
  | .requestsError msg => msg
  | .pdfReadError msg => msg

/-! ## Python string model

Python strings are sequences of characters; we use Lean `String` and
model slicing on the underlying character list, which is what
`s[:3000]` does. -/

/-- Python slice `s[:n]`: the first `n` characters of `s`. -/
def pySlice (s : String) (n : Nat) : String := String.mk (s.data.take n)

/-! ## `str.format` model

A Python format string is represented by its parsed form: a list of
literal segments and named replacement fields (the source template file
uses only plain `\x7bname\x7d` fields).  `pyFormat` substitutes keyword
arguments left to right and raises `KeyError` (returned as `.error`)
at the first field whose name is not among the keywords, exactly as
`str.format` does. -/

inductive TmplPart where
  | lit (s : String)
  | field (name : String)
  deriving DecidableEq, Repr

/-- A parsed format string. -/
abbrev FmtString := List TmplPart

/-- `str.format(**kwargs)` on a parsed format string: substitute each
field from `kwargs`, failing with the offending key name at the first
field not supplied. -/
def pyFormat : FmtString → List (String × String) → Except String String
  | [], _ => .ok ""
  | .lit s :: rest, kwargs => (pyFormat rest kwargs).map (fun t => s ++ t)
  | .field n :: rest, kwargs =>
      match List.lookup n kwargs with
      | none => .error n
      | some v => (pyFormat rest kwargs).map (fun t => v ++ t)

/-- The fully substituted rendering of a format string: literals kept,
every field replaced by its keyword value; `pyFormat` returns exactly
this when every field is supplied, so the result contains no
unsubstituted replacement field. -/
def substAll : FmtString → List (String × String) → String
  | [], _ => ""
  | .lit s :: rest, kwargs => s ++ substAll rest kwargs
  | .field n :: rest, kwargs => (List.lookup n kwargs).getD "" ++ substAll rest kwargs

/-! ## The template file (lines 25-26 of `app.py`)

`with open('template.json') as f: TEMPLATE = json.load(f)`.
The loaded value is a JSON object whose fields of interest are format
strings; we model it as an association list from field names to parsed
format strings. -/

/-- The parsed template configuration record. -/
abbrev TemplateDict := List (String × FmtString)

/-- The state of the `template.json` file as seen by `open` +
`json.load`: missing (so `open` raises), present but not valid JSON
(so `json.load` raises), or successfully parsed. -/
inductive TemplateFileState where
  | missing
  | invalidJson (msg : String)
  | parsed (d : TemplateDict)

/-- Lines 25-26 of `app.py`: open and parse `template.json`.  `open`
raises `FileNotFoundError` on a missing file and `json.load` raises on
malformed JSON; a successfully parsed value is bound to `TEMPLATE` with
no validation of its fields. -/
def load_template : TemplateFileState → Except PyExn TemplateDict
  | .missing => .error (.fileNotFoundError "template.json")
  | .invalidJson msg => .error (.jsonDecodeError msg)
  | .parsed d => .ok d

/-! ## PDF text extraction (`extract_text_from_pdf`, lines 28-35) -/

/-- Outcome of `PdfReader(BytesIO(response.content))` on the fetched
bytes: either the constructor raises (bytes are not a valid PDF) or it
yields the list of per-page `extract_text()` results in document
order. -/
inductive PdfDecodeOutcome where
  | invalid (msg : String)
  | pages (ps : List String)

/-- Behaviour of `requests.get(url)`: the call raises (transport
failure), or returns a response whose body then goes to the PDF
decoder. -/
inductive FetchOutcome where
  | raiseGet (msg : String)
  | body (doc : PdfDecodeOutcome)

/-- The accumulation loop of lines 32-34:
`text = ""; for page in reader.pages: text += page.extract_text() + "\n"`. -/
def concatPages (pages : List String) : String :=
  pages.foldl (fun acc p => acc ++ p ++ "\n") ""

/-- `extract_text_from_pdf(url)` (lines 28-35): fetch the URL, decode
the body as a PDF, concatenate per-page text with a newline after each
page, and return the first 3000 characters.  The function has no
exception handler, so a failing fetch or decode raises to the caller. -/
def extract_text_from_pdf : FetchOutcome → Except PyExn String
  | .raiseGet msg => .error (.requestsError msg)
  | .body (.invalid msg) => .error (.pdfReadError msg)
  | .body (.pages ps) => .ok (pySlice (concatPages ps) 3000)

/-- Python `str.strip()`: remove leading and trailing whitespace
characters. -/
def pyStrip (s : String) : String :=
  String.mk (((s.data.dropWhile Char.isWhitespace).reverse.dropWhile
    Char.isWhitespace).reverse)

/-! ## JSON values and the completion response path -/

/-- A JSON value, as produced by `response.json()`. -/
inductive Json where
  | null
  | bool (b : Bool)
  | num (n : Int)
  | str (s : String)
  | arr (elems : List Json)
  | obj (fields : List (String × Json))

/-- Python subscript `j[k]` for a string key: succeeds on an object
containing the key, raises `KeyError` on an object without it, and
raises `TypeError` on any other value. -/
def Json.get (j : Json) (k : String) : Except String Json :=
  match j with
  | .obj fields =>
      match List.lookup k fields with
      | some v => .ok v
      | none => .error ("KeyError: " ++ k)
  | _ => .error ("TypeError: value is not subscriptable by key " ++ k)

/-- Python subscript `j[i]` for an integer index on what should be a
list: succeeds when the value is a list long enough, raises
otherwise. -/
def Json.at (j : Json) (i : Nat) : Except String Json :=
  match j with
  | .arr elems =>
      match elems.get? i with
      | some v => .ok v
      | none => .error "IndexError: list index out of range"
  | _ => .error "TypeError: value is not subscriptable by index"

/-- The untrimmed content string at `["choices"][0]["message"]["content"]`
(line 63), requiring it to be a JSON string so that `.strip()` exists. -/
def extract_content (j : Json) : Except String String := do
  let choices ← j.get "choices"
  let first ← choices.at 0
  let msg ← first.get "message"
  let content ← msg.get "content"
  match content with
  | .str s => .ok s
  | _ => .error "AttributeError: value has no attribute strip"

/-- Behaviour of `requests.post(GROQ_URL, ...)`: the call raises
(transport failure) or returns a response with a status code and a body
whose JSON parse either fails or yields a value. -/
inductive PostBehavior where
  | transportError (msg : String)
  | response (status : Nat) (body : Except String Json)

/-- The distinct failure conditions of the `try` block of
`generate_summary` (lines 60-64). -/
inductive ReqFailure where
  | transport (msg : String)
  | httpStatus (code : Nat)
  | jsonDecode (msg : String)
  | missingField (msg : String)
  deriving DecidableEq, Repr

/-- The `str(e)` rendering of each failure, as interpolated into
`f"❌ Error: \x7bstr(e)\x7d"` on line 66. -/
def describeFailure : ReqFailure → String
  | .transport msg => msg
  | .httpStatus code =>
      toString code ++ (if code < 500 then " Client Error" else " Server Error")
  | .jsonDecode msg => msg
  | .missingField msg => msg

/-- `response.raise_for_status()` raises exactly when the status code is
in `[400, 600)`. -/
def raisesForStatus (status : Nat) : Bool := 400 ≤ status && status < 600

/-- The body of the `try` block (lines 61-64): POST, check the status,
parse the body as JSON, extract `choices[0].message.content`, and strip
it.  Returns the failure condition instead of the Python exception;
every failure is caught by the `except` on line 65. -/
def tryCompletion : PostBehavior → Except ReqFailure String
  | .transportError msg => .error (.transport msg)
  | .response status body =>
      if raisesForStatus status then .error (.httpStatus status)
      else
        match body with
        | .error msg => .error (.jsonDecode msg)
        | .ok j =>
            match extract_content j with
            | .ok s => .ok (pyStrip s)
            | .error msg => .error (.missingField msg)

/-- The keyword arguments of the `.format(...)` call on lines 39-43. -/
def promptKwargs (text audience : String) (len : Nat) : List (String × String) :=
  [("audience", audience), ("length", toString len ++ " sentences"), ("text", text)]

/-- `generate_summary(text, audience, length)` (lines 37-66).  The
template lookups (`TEMPLATE["prompt_template"]`, line 39, and
`TEMPLATE["system_prompt"]`, line 53) and the `.format` call happen
BEFORE the `try` block, so their exceptions propagate to the caller;
everything from `requests.post` on is inside the `try` and any failure
there is returned as a `"❌ Error: "`-prefixed string. -/
def generate_summary (tmpl : TemplateDict) (text audience : String) (len : Nat)
    (post : PostBehavior) : Except PyExn String :=
  match List.lookup "prompt_template" tmpl with
  | none => .error (.keyError "prompt_template")
  | some fmt =>
      match pyFormat fmt (promptKwargs text audience len) with
      | .error k => .error (.keyError k)
      | .ok _prompt =>
          match List.lookup "system_prompt" tmpl with
          | none => .error (.keyError "system_prompt")
          | some _sys =>
              .ok (match tryCompletion post with
                   | .ok s => s
                   | .error f => "❌ Error: " ++ describeFailure f)

/-! ## The Streamlit button handler (lines 131-153) -/

/-- What the shell displays as the outcome of one triggered run. -/
inductive Display where
  | warning (msg : String)
  | error (msg : String)
  | success (summary : String)
  deriving DecidableEq, Repr

/-- A network call attempted during a run. -/
inductive NetCall where
  | get (url : String)
  | post
  deriving DecidableEq, Repr

/-- Lines 131-153: on the button action, warn and stop if the URL is
empty; otherwise run the pipeline inside a `try`, reporting an empty
extraction as `"Failed to extract text from PDF"` (then `st.stop()`),
rendering the summary on success, and displaying
`f"Error: \x7bstr(e)\x7d"` for any exception raised by either call.
The second component records the network calls attempted, in order. -/
def run_button (url audience : String) (len : Nat) (tmpl : TemplateDict)
    (fetch : FetchOutcome) (post : PostBehavior) : Display × List NetCall :=
  if url = "" then
    (.warning "Please enter a PDF URL", [])
  else
    match extract_text_from_pdf fetch with
    | .error e => (.error ("Error: " ++ describePyExn e), [.get url])
    | .ok text =>
        if text = "" then
          (.error "Failed to extract text from PDF", [.get url])
        else
          match generate_summary tmpl text audience len post with
          | .error e => (.error ("Error: " ++ describePyExn e), [.get url])
          | .ok summary => (.success summary, [.get url, .post])

/-- The four audience labels offered by the selectbox (line 124). -/
def audienceLabels : List String :=
  ["Beginner-Friendly", "Technical", "Concise", "Detailed"]

/-! ## Helper lemmas -/

lemma data_foldl_concat (pages : List String) (acc : String) :
    (pages.foldl (fun a p => a ++ p ++ "\n") acc).data
      = acc.data ++ (pages.map (fun p => p.data ++ ['\n'])).flatten := by
  induction pages generalizing acc with
  | nil => simp
  | cons p rest ih =>
      simp only [List.foldl_cons, List.map_cons, List.flatten_cons, ih,
        String.data_append]
      simp

lemma concatPages_data (pages : List String) :
    (concatPages pages).data = (pages.map (fun p => p.data ++ ['\n'])).flatten := by
  simpa using data_foldl_concat pages ""

lemma concatPages_eq_join (pages : List String) :
    concatPages pages = String.join (pages.map (fun p => p ++ "\n")) := by
  apply String.ext
  rw [concatPages_data, String.data_join, List.map_map]
  congr 1

/-- Character count of the pre-truncation concatenation: one `'\n'` per
page plus whatever newlines the pages themselves contain. -/
lemma concatPages_count (pages : List String) :
    (concatPages pages).data.count '\n'
      = pages.length + (pages.map (fun p => p.data.count '\n')).sum := by
  induction pages with
  | nil => simp [concatPages_data]
  | cons p rest ih =>
      simp only [concatPages_data, List.map_cons, List.flatten_cons,
        List.count_append] at ih ⊢
      simp only [List.length_cons, List.map_cons, List.sum_cons, ih]
      simp [List.count_append]
      omega

/-! ## C3 and C4: the extractor's concatenation and truncation -/

/-- C3: for every fetched PDF, `extract_text_from_pdf` truncates the
concatenated per-page text to its first 3000 characters: the returned
string has length at most 3000, and whenever the full concatenation is
longer than 3000 characters the return value is exactly its first 3000
characters, character for character. -/
theorem C3_truncation (pages : List String) :
    ∃ r, extract_text_from_pdf (.body (.pages pages)) = .ok r ∧
      r.length ≤ 3000 ∧
      (3000 < (concatPages pages).length →
        r.data = (concatPages pages).data.take 3000) := by
  refine ⟨pySlice (concatPages pages) 3000, rfl, ?_, fun _ => rfl⟩
  show ((concatPages pages).data.take 3000).length ≤ 3000
  rw [List.length_take]
  exact min_le_left _ _

theorem C3_truncation_witness :
    ∃ r, extract_text_from_pdf
        (.body (.pages [String.mk (List.replicate 3001 'a')])) = .ok r ∧
      r.length ≤ 3000 ∧
      r.data = (concatPages [String.mk (List.replicate 3001 'a')]).data.take 3000 := by
  obtain ⟨r, h1, h2, h3⟩ := C3_truncation [String.mk (List.replicate 3001 'a')]
  refine ⟨r, h1, h2, h3 ?_⟩
  show 3000 < (concatPages [String.mk (List.replicate 3001 'a')]).data.length
  have h : (concatPages [String.mk (List.replicate 3001 'a')]).data
      = List.replicate 3001 'a' ++ ['\n'] := by
    rw [concatPages_data]
    simp only [List.map_cons, List.map_nil, List.flatten_cons, List.flatten_nil,
      List.append_nil]
  rw [h, List.length_append, List.length_replicate]
  norm_num

/-- C4: for every valid PDF, the pre-truncation concatenation built by
`extract_text_from_pdf` is the per-page texts in document order with
exactly one newline appended after each page (the last included), so
when the pages contain no newline of their own the pre-truncation text
contains exactly `N` newline-terminated segments. -/
theorem C4_newline_per_page (pages : List String) :
    concatPages pages = String.join (pages.map (fun p => p ++ "\n")) ∧
    ((∀ p ∈ pages, p.data.count '\n' = 0) →
      (concatPages pages).data.count '\n' = pages.length) := by
  refine ⟨concatPages_eq_join pages, fun h => ?_⟩
  rw [concatPages_count pages]
  have hz : (pages.map (fun p => p.data.count '\n')).sum = 0 := by
    rw [List.sum_eq_zero]
    intro x hx
    obtain ⟨p, hp, rfl⟩ := List.mem_map.mp hx
    exact h p hp
  omega

theorem C4_newline_per_page_witness :
    concatPages ["alpha", "beta"]
        = String.join (["alpha", "beta"].map (fun p => p ++ "\n")) ∧
    (concatPages ["alpha", "beta"]).data.count '\n' = 2 := by
  obtain ⟨h1, h2⟩ := C4_newline_per_page ["alpha", "beta"]
  exact ⟨h1, h2 (by decide)⟩

/-! ## Format-string lemmas -/

lemma pyFormat_eq_substAll (parts : FmtString) (kwargs : List (String × String))
    (h : ∀ n, TmplPart.field n ∈ parts → (List.lookup n kwargs).isSome) :
    pyFormat parts kwargs = .ok (substAll parts kwargs) := by
  induction parts with
  | nil => rfl
  | cons p rest ih =>
      match p with
      | .lit s =>
          have hr := ih (fun n hn => h n (List.mem_cons_of_mem _ hn))
          simp [pyFormat, substAll, hr, Except.map]
      | .field n =>
          have hn : (List.lookup n kwargs).isSome := h n (List.mem_cons_self _ _)
          obtain ⟨v, hv⟩ := Option.isSome_iff_exists.mp hn
          have hr := ih (fun m hm => h m (List.mem_cons_of_mem _ hm))
          simp [pyFormat, substAll, hv, hr, Except.map]

lemma infix_append_left (s : List Char) {l m : List Char} (h : l <:+: m) :
    l <:+: s ++ m := by
  obtain ⟨a, b, rfl⟩ := h
  exact ⟨s ++ a, b, by simp⟩

/-- Every supplied field's value occurs verbatim in the fully
substituted rendering. -/
lemma substAll_field_infix {parts : FmtString} {kwargs : List (String × String)}
    {n : String} {v : String} (hmem : TmplPart.field n ∈ parts)
    (hv : List.lookup n kwargs = some v) :
    v.data <:+: (substAll parts kwargs).data := by
  induction parts with
  | nil => simp at hmem
  | cons p rest ih =>
      rcases List.mem_cons.mp hmem with heq | htail
      · subst heq
        rw [substAll, hv]
        exact ⟨[], (substAll rest kwargs).data, by simp [String.data_append]⟩
      · match p with
        | .lit s =>
            rw [substAll, String.data_append]
            exact infix_append_left _ (ih htail)
        | .field m =>
            rw [substAll, String.data_append]
            exact infix_append_left _ (ih htail)

/-- The three keyword arguments supplied by `generate_summary` cover
the names `audience`, `length` and `text`. -/
lemma promptKwargs_covers (text audience : String) (len : Nat) (n : String)
    (h : n = "audience" ∨ n = "length" ∨ n = "text") :
    (List.lookup n (promptKwargs text audience len)).isSome := by
  rcases h with rfl | rfl | rfl <;> rfl

/-- Unconditional shape of `generate_summary` for a template whose
`prompt_template` and `system_prompt` fields exist and whose format
fields are all supplied: the prompt formatting succeeds and the result
is the `try` block's outcome, rendered as a plain string. -/
lemma generate_summary_total (tmpl : TemplateDict) (fmt sys : FmtString)
    (text audience : String) (len : Nat) (post : PostBehavior)
    (hpt : List.lookup "prompt_template" tmpl = some fmt)
    (hsp : List.lookup "system_prompt" tmpl = some sys)
    (honly : ∀ n, TmplPart.field n ∈ fmt →
      n = "audience" ∨ n = "length" ∨ n = "text") :
    generate_summary tmpl text audience len post
      = .ok (match tryCompletion post with
             | .ok s => s
             | .error f => "❌ Error: " ++ describeFailure f) := by
  have hfmt := pyFormat_eq_substAll fmt (promptKwargs text audience len)
    (fun n hn => promptKwargs_covers text audience len n (honly n hn))
  simp only [generate_summary, hpt, hfmt, hsp]

/-! ## Sample template used by the concrete witnesses -/

/-- A well-formed user-prompt format string with exactly the three
expected replacement fields. -/
def sampleFmt : FmtString :=
  [.lit "Explain for ", .field "audience", .lit " in ", .field "length",
   .lit ": ", .field "text"]

/-- A well-formed parsed `template.json` record. -/
def sampleTemplate : TemplateDict :=
  [("system_prompt", [.lit "You are a research assistant."]),
   ("prompt_template", sampleFmt)]

lemma sampleFmt_fields (n : String) (hn : TmplPart.field n ∈ sampleFmt) :
    n = "audience" ∨ n = "length" ∨ n = "text" := by
  simpa [sampleFmt] using hn

/-! ## C1: the requester never raises and prefixes failures -/

/-- C1: for a template record carrying the two expected fields whose
user-prompt format string only references the supplied substitution
keys, `generate_summary` never raises to its caller, whatever the
behaviour of the completion HTTP call (transport failure, non-2xx
status, malformed JSON body, missing `choices[0].message.content`
field): it returns a string, and in every failure case that string is
`"❌ Error: "` followed by the description of the underlying failure. -/
theorem C1_never_raises (tmpl : TemplateDict) (fmt sys : FmtString)
    (text audience : String) (len : Nat) (post : PostBehavior)
    (hpt : List.lookup "prompt_template" tmpl = some fmt)
    (hsp : List.lookup "system_prompt" tmpl = some sys)
    (honly : ∀ n, TmplPart.field n ∈ fmt →
      n = "audience" ∨ n = "length" ∨ n = "text") :
    ∃ s, generate_summary tmpl text audience len post = .ok s ∧
      ∀ f, tryCompletion post = .error f →
        s = "❌ Error: " ++ describeFailure f := by
  refine ⟨_, generate_summary_total tmpl fmt sys text audience len post hpt hsp honly, ?_⟩
  intro f hf
  rw [hf]

theorem C1_never_raises_witness :
    ∃ s, generate_summary sampleTemplate "paper body" "Technical" 5
        (.response 500 (.ok Json.null)) = .ok s ∧
      ∀ f, tryCompletion (.response 500 (.ok Json.null)) = .error f →
        s = "❌ Error: " ++ describeFailure f :=
  C1_never_raises sampleTemplate sampleFmt [.lit "You are a research assistant."]
    "paper body" "Technical" 5 (.response 500 (.ok Json.null)) rfl rfl sampleFmt_fields

/-! ## C6: successful completions are returned trimmed -/

/-- C6: for every completion response whose body parses as JSON
containing a string at `choices[0].message.content`, `generate_summary`
returns exactly that content with leading and trailing whitespace
removed (given a well-formed template and a status that
`raise_for_status` accepts). -/
theorem C6_success_returns_trimmed (tmpl : TemplateDict) (fmt sys : FmtString)
    (text audience : String) (len : Nat) (status : Nat) (j : Json) (raw : String)
    (hpt : List.lookup "prompt_template" tmpl = some fmt)
    (hsp : List.lookup "system_prompt" tmpl = some sys)
    (honly : ∀ n, TmplPart.field n ∈ fmt →
      n = "audience" ∨ n = "length" ∨ n = "text")
    (hstatus : raisesForStatus status = false)
    (hraw : extract_content j = .ok raw) :
    generate_summary tmpl text audience len (.response status (.ok j))
      = .ok (pyStrip raw) := by
  rw [generate_summary_total tmpl fmt sys text audience len
    (.response status (.ok j)) hpt hsp honly]
  have h : tryCompletion (.response status (.ok j)) = .ok (pyStrip raw) := by
    simp [tryCompletion, hstatus, hraw]
  rw [h]

theorem C6_success_returns_trimmed_witness :
    generate_summary sampleTemplate "txt" "Concise" 4
        (.response 200 (.ok (Json.obj [("choices",
          Json.arr [Json.obj [("message",
            Json.obj [("content", Json.str " Hello world. ")])]])])))
      = .ok "Hello world." := by
  rw [C6_success_returns_trimmed sampleTemplate sampleFmt
    [.lit "You are a research assistant."] "txt" "Concise" 4 200
    (Json.obj [("choices", Json.arr [Json.obj [("message",
      Json.obj [("content", Json.str " Hello world. ")])]])])
    " Hello world. " rfl rfl sampleFmt_fields rfl rfl]
  rfl

/-! ## C7: prompt construction -/

/-- C7: for every audience label, every length in `[3,10]` and every
text, given a format string whose replacement fields are exactly
`audience`, `length` and `text`, the prompt built on lines 39-43
contains the literal substring `"<length> sentences"`, contains the
text verbatim, and equals the fully substituted rendering `substAll`
(every replacement field substituted by its keyword value, so no
placeholder token of the template survives). -/
theorem C7_prompt_contents (fmt : FmtString) (text audience : String) (len : Nat)
    (haud : audience ∈ audienceLabels) (hlen3 : 3 ≤ len) (hlen10 : len ≤ 10)
    (ha : TmplPart.field "audience" ∈ fmt)
    (hl : TmplPart.field "length" ∈ fmt)
    (ht : TmplPart.field "text" ∈ fmt)
    (honly : ∀ n, TmplPart.field n ∈ fmt →
      n = "audience" ∨ n = "length" ∨ n = "text") :
    ∃ prompt, pyFormat fmt (promptKwargs text audience len) = .ok prompt ∧
      prompt = substAll fmt (promptKwargs text audience len) ∧
      (toString len ++ " sentences").data <:+: prompt.data ∧
      text.data <:+: prompt.data := by
  refine ⟨_, pyFormat_eq_substAll fmt _
    (fun n hn => promptKwargs_covers text audience len n (honly n hn)), rfl, ?_, ?_⟩
  · exact substAll_field_infix hl rfl
  · exact substAll_field_infix ht rfl

theorem C7_prompt_contents_witness :
    ∃ prompt, pyFormat sampleFmt (promptKwargs "BODY" "Technical" 5) = .ok prompt ∧
      prompt = substAll sampleFmt (promptKwargs "BODY" "Technical" 5) ∧
      (toString 5 ++ " sentences").data <:+: prompt.data ∧
      ("BODY" : String).data <:+: prompt.data :=
  C7_prompt_contents sampleFmt "BODY" "Technical" 5 (by decide) (by decide)
    (by decide) (by decide) (by decide) (by decide) sampleFmt_fields

/-! ## C8: empty URL short-circuits the pipeline -/

/-- C8: for every triggered run whose URL input is empty, the button
handler displays the warning and attempts zero network calls: neither
the extractor's GET nor the requester's POST happens. -/
theorem C8_empty_url (audience : String) (len : Nat) (tmpl : TemplateDict)
    (fetch : FetchOutcome) (post : PostBehavior) :
    run_button "" audience len tmpl fetch post
      = (.warning "Please enter a PDF URL", []) := rfl

/-! ## C2: a bad substitution key raises out of the requester -/

/-- A template whose format string references a key the `.format` call
does not supply. -/
def badKeyTemplate : TemplateDict :=
  [("prompt_template", [.field "topic"]), ("system_prompt", [.lit "sys"])]

/-- C2 counterexample: with a format string referencing the key
`topic`, `generate_summary` does NOT return an error string: the
`KeyError` propagates out of the function (the `.format` call on lines
39-43 sits before the `try` block). -/
theorem C2_counterexample :
    generate_summary badKeyTemplate "t" "Technical" 5
        (.response 200 (.ok Json.null)) = .error (.keyError "topic") ∧
    ∀ s, generate_summary badKeyTemplate "t" "Technical" 5
        (.response 200 (.ok Json.null)) ≠ .ok s := by
  refine ⟨rfl, fun s h => ?_⟩
  have h2 : (Except.error (PyExn.keyError "topic") : Except PyExn String)
      = Except.ok s := h
  exact Except.noConfusion h2

/-- C2 amended: a substitution failure raises a `KeyError` out of
`generate_summary` (the `.format` call is outside its `try` block); the
exception is then recovered at the button handler's outer `except`,
which displays `"Error: <str(e)>"` — so the app shows an error message
rather than crashing, but the recovery happens in the shell, not inside
`generate_summary`. -/
theorem C2_template_key_propagates (tmpl : TemplateDict) (fmt : FmtString)
    (text audience url : String) (len : Nat) (k : String)
    (fetch : FetchOutcome) (post : PostBehavior)
    (hpt : List.lookup "prompt_template" tmpl = some fmt)
    (hfail : pyFormat fmt (promptKwargs text audience len) = .error k)
    (hurl : url ≠ "")
    (hfetch : extract_text_from_pdf fetch = .ok text)
    (htext : text ≠ "") :
    generate_summary tmpl text audience len post = .error (.keyError k) ∧
    run_button url audience len tmpl fetch post
      = (.error ("Error: " ++ describePyExn (.keyError k)), [.get url]) := by
  have hgs : generate_summary tmpl text audience len post
      = .error (.keyError k) := by
    simp only [generate_summary, hpt, hfail]
  refine ⟨hgs, ?_⟩
  simp [run_button, hurl, hfetch, htext, hgs]

theorem C2_template_key_propagates_witness :
    generate_summary badKeyTemplate "t\n" "Technical" 5
        (.response 200 (.ok Json.null)) = .error (.keyError "topic") ∧
    run_button "u" "Technical" 5 badKeyTemplate (.body (.pages ["t"]))
        (.response 200 (.ok Json.null))
      = (.error ("Error: " ++ describePyExn (.keyError "topic")), [.get "u"]) :=
  C2_template_key_propagates badKeyTemplate [.field "topic"] "t\n" "Technical"
    "u" 5 "topic" (.body (.pages ["t"])) (.response 200 (.ok Json.null))
    rfl rfl (by decide) rfl (by decide)

/-! ## C5: invalid PDFs raise, zero-page PDFs do not -/

/-- C5 counterexample: a PDF that decodes to zero pages is NOT an
error: `extract_text_from_pdf` returns the empty string as a normal
return value. -/
theorem C5_counterexample :
    extract_text_from_pdf (.body (.pages [])) = .ok "" ∧
    ∀ e, extract_text_from_pdf (.body (.pages [])) ≠ .error e := by
  refine ⟨rfl, fun e h => ?_⟩
  have h2 : (Except.ok "" : Except PyExn String) = Except.error e := h
  exact Except.noConfusion h2

/-- C5 amended: `extract_text_from_pdf` fails (raises out of the
function) when the bytes are not a valid PDF, but a document with zero
extractable pages is a normal return of the empty string; the empty
result is only turned into the displayed error
`"Failed to extract text from PDF"` by the button handler's emptiness
check. -/
theorem C5_decode_behaviour (msg url audience : String) (len : Nat)
    (tmpl : TemplateDict) (post : PostBehavior) (hurl : url ≠ "") :
    extract_text_from_pdf (.body (.invalid msg)) = .error (.pdfReadError msg) ∧
    extract_text_from_pdf (.body (.pages [])) = .ok "" ∧
    run_button url audience len tmpl (.body (.pages [])) post
      = (.error "Failed to extract text from PDF", [.get url]) := by
  have hempty : extract_text_from_pdf (.body (.pages ([] : List String)))
      = .ok "" := rfl
  refine ⟨rfl, hempty, ?_⟩
  simp [run_button, hurl, hempty]

theorem C5_decode_behaviour_witness :
    extract_text_from_pdf (.body (.invalid "bad bytes"))
      = .error (.pdfReadError "bad bytes") ∧
    extract_text_from_pdf (.body (.pages [])) = .ok "" ∧
    run_button "u" "Technical" 5 [] (.body (.pages []))
        (.response 200 (.ok Json.null))
      = (.error "Failed to extract text from PDF", [.get "u"]) :=
  C5_decode_behaviour "bad bytes" "u" "Technical" 5 []
    (.response 200 (.ok Json.null)) (by decide)

/-! ## C9: template loading does not validate fields -/

/-- C9 counterexample: a `template.json` that parses as an object with
NEITHER required field is accepted by the load on lines 25-26 (no
`ConfigError`); the missing `prompt_template` field only surfaces at
the first `generate_summary` call, as a `KeyError` raised from line
39. -/
theorem C9_counterexample :
    load_template (.parsed []) = .ok [] ∧
    (∀ e, load_template (.parsed []) ≠ .error e) ∧
    generate_summary [] "t" "Technical" 5 (.response 200 (.ok Json.null))
      = .error (.keyError "prompt_template") := by
  refine ⟨rfl, fun e h => ?_, rfl⟩
  have h2 : (Except.ok ([] : TemplateDict) : Except PyExn TemplateDict)
      = Except.error e := h
  exact Except.noConfusion h2

/-- C9 amended: loading fails at startup exactly when the file is
missing, unreadable or not valid JSON; a file that parses but lacks a
required field is NOT rejected at load time — every parsed record is
accepted, and the absent field surfaces as a `KeyError` at the first
use inside `generate_summary`. -/
theorem C9_load_no_field_validation :
    load_template .missing = .error (.fileNotFoundError "template.json") ∧
    (∀ m, load_template (.invalidJson m) = .error (.jsonDecodeError m)) ∧
    (∀ d, load_template (.parsed d) = .ok d) ∧
    (∀ text audience len post,
      generate_summary [("system_prompt", [TmplPart.lit "s"])] text audience
        len post = .error (.keyError "prompt_template")) :=
  ⟨rfl, fun _ => rfl, fun _ => rfl, fun _ _ _ _ => rfl⟩

/-! ## C10: all-empty pages yield newlines, capped at 3000 -/

lemma concatPages_replicate_empty (n : Nat) :
    (concatPages (List.replicate n "")).data = List.replicate n '\n' := by
  rw [concatPages_data, List.map_replicate]
  show (List.replicate n ['\n']).flatten = List.replicate n '\n'
  induction n with
  | zero => rfl
  | succ k ih => simp [List.replicate_succ, ih]

/-- On a PDF of `n` pages that all extract to the empty string, the
extractor returns `min n 3000` newline characters. -/
lemma extract_replicate_empty (n : Nat) :
    extract_text_from_pdf (.body (.pages (List.replicate n "")))
      = .ok (String.mk (List.replicate (min n 3000) '\n')) := by
  have hdata : (pySlice (concatPages (List.replicate n "")) 3000).data
      = List.replicate (min n 3000) '\n' := by
    show (concatPages (List.replicate n "")).data.take 3000 = _
    rw [concatPages_replicate_empty, List.take_replicate, min_comm]
  exact congrArg Except.ok (String.ext hdata)

/-- C10 counterexample: for a 3001-page PDF whose pages all extract to
the empty string, the extractor does NOT return 3001 newline
characters — the 3000-character truncation applies to the all-newline
concatenation as well. -/
theorem C10_counterexample :
    extract_text_from_pdf (.body (.pages (List.replicate 3001 "")))
      ≠ .ok (String.mk (List.replicate 3001 '\n')) := by
  rw [extract_replicate_empty 3001]
  intro h
  have h2 := Except.ok.inj h
  have hlen := congrArg (fun s : String => s.data.length) h2
  change (List.replicate (min 3001 3000) '\n').length
      = (List.replicate 3001 '\n').length at hlen
  rw [List.length_replicate, List.length_replicate] at hlen
  omega

/-- C10 amended: for every valid PDF with `N ≥ 1` pages that all
extract to the empty string, `extract_text_from_pdf` returns a string
of exactly `min N 3000` newline characters — a non-empty string — so
the handler's empty-text check does not fire, the
`"Failed to extract text from PDF"` branch is not taken, and the run
proceeds to the summarization POST on whitespace-only input. -/
theorem C10_whitespace_only_proceeds (n : Nat) (url audience : String)
    (len : Nat) (tmpl : TemplateDict) (fmt sys : FmtString)
    (post : PostBehavior)
    (hn : 1 ≤ n) (hurl : url ≠ "")
    (hpt : List.lookup "prompt_template" tmpl = some fmt)
    (hsp : List.lookup "system_prompt" tmpl = some sys)
    (honly : ∀ m, TmplPart.field m ∈ fmt →
      m = "audience" ∨ m = "length" ∨ m = "text") :
    extract_text_from_pdf (.body (.pages (List.replicate n "")))
      = .ok (String.mk (List.replicate (min n 3000) '\n')) ∧
    String.mk (List.replicate (min n 3000) '\n') ≠ "" ∧
    ∃ s, run_button url audience len tmpl
        (.body (.pages (List.replicate n ""))) post
      = (.success s, [.get url, .post]) := by
  have hextract := extract_replicate_empty n
  have hne : String.mk (List.replicate (min n 3000) '\n') ≠ "" := by
    intro h
    have hl := congrArg (fun s : String => s.data.length) h
    change (List.replicate (min n 3000) '\n').length
        = List.length ([] : List Char) at hl
    rw [List.length_replicate] at hl
    simp at hl
    omega
  have hgs := generate_summary_total tmpl fmt sys
    (String.mk (List.replicate (min n 3000) '\n')) audience len post hpt hsp honly
  refine ⟨hextract, hne, ?_⟩
  refine ⟨(match tryCompletion post with
           | .ok s => s
           | .error f => "❌ Error: " ++ describeFailure f), ?_⟩
  simp [run_button, hurl, hextract, hne, hgs]

theorem C10_whitespace_only_proceeds_witness :
    extract_text_from_pdf (.body (.pages (List.replicate 2 "")))
      = .ok (String.mk (List.replicate (min 2 3000) '\n')) ∧
    String.mk (List.replicate (min 2 3000) '\n') ≠ "" ∧
    ∃ s, run_button "u" "Technical" 5 sampleTemplate
        (.body (.pages (List.replicate 2 ""))) (.transportError "boom")
      = (.success s, [.get "u", .post]) :=
  C10_whitespace_only_proceeds 2 "u" "Technical" 5 sampleTemplate sampleFmt
    [.lit "You are a research assistant."] (.transportError "boom")
    (by decide) (by decide) rfl rfl sampleFmt_fields
